import Mathlib

/-!
Verification of the GIR / APA benefit engine (app.py) against its
natural-language specification.

The arithmetic of the source is embedded over `ℚ` (exact rational
arithmetic); Python's `round` (banker's rounding, ties to even) is
modelled by `pyRound`.  The GIR classifier works on the Python dict
`Dict[str, int]`, embedded here as an association list
`List (String × ℤ)` traversed in insertion order.
-/

/-- Source `MTP` default: `DEFAULT_CFG["mtp"] = 1365.08`. -/
def MTP : ℚ := 1365.08

/-- Source: `T1 = 0.317  # seuil 1 × MTP (palier A1)`. -/
def T1 : ℚ := 0.317

/-- Source: `T2 = 0.498  # seuil 2 × MTP (palier A2)`. -/
def T2 : ℚ := 0.498

/-- Source: `LOW = 0.725 # 0,725 × MTP : 0 % de participation`. -/
def LOW : ℚ := 0.725

/-- Source: `HIGH = 2.67 # 2,67 × MTP : 90 % de participation`. -/
def HIGH : ℚ := 2.67

/-- Source `split_A(A, mtp)`: the three-tranche split `(a1, a2, a3)`. -/
def split_A (A mtp : ℚ) : ℚ × ℚ × ℚ :=
  let s1 := T1 * mtp
  let s2 := T2 * mtp
  let a1 := min A s1
  let a2 := min (max (A - s1) 0) (max (s2 - s1) 0)
  let a3 := max (A - s2) 0
  (a1, a2, a3)

/-- The interior blend of `compute_participation` (the value of `P`
computed in the `else` branch of the source, before clamping). -/
def participationBlend (R A mtp : ℚ) : ℚ :=
  let a := split_A A mtp
  let denom := (HIGH - LOW) * mtp
  let base := ((R - LOW * mtp) / denom) * 0.9
  let term2 := ((1 - 0.4) / denom) * R + 0.4
  let term3 := ((1 - 0.2) / denom) * R + 0.2
  a.1 * base + a.2.1 * base * term2 + a.2.2 * base * term3

/-- Source `compute_participation(R, A, mtp)`:
`A ≤ 0 → 0`; `R ≤ LOW*mtp → 0`; `R ≥ HIGH*mtp → 0.9*A`; otherwise the
tranche blend clamped into `[0, 0.9*A]` by `max(min(P, 0.9*A), 0.0)`. -/
def compute_participation (R A mtp : ℚ) : ℚ :=
  if A ≤ 0 then 0
  else if R ≤ LOW * mtp then 0
  else if HIGH * mtp ≤ R then 0.9 * A
  else max (min (participationBlend R A mtp) (0.9 * A)) 0

/-- The ten fixed AGGIR domain identifiers, in source order (`AGGIR_ITEMS`). -/
def AGGIR_KEYS : List String :=
  ["Cohérence", "Orientation", "Toilette", "Habillage", "Alimentation",
   "Élimination", "Transferts", "Déplacements intérieurs",
   "Déplacements extérieurs", "Communication"]

/-- Source: `severe = sum(1 for v in vals if v == 2)` over
`vals = list(responses.values())`. -/
def severeCount (resp : List (String × ℤ)) : ℕ :=
  ((resp.map Prod.snd).filter (fun v => v == 2)).length

/-- Source: `partial = sum(1 for v in vals if v == 1)`. -/
def midCount (resp : List (String × ℤ)) : ℕ :=
  ((resp.map Prod.snd).filter (fun v => v == 1)).length

/-- Source: `sev_keys = {k for k, v in responses.items() if v == 2}`
(only ever used for membership tests, so a list of keys suffices). -/
def sevKeys (resp : List (String × ℤ)) : List String :=
  (resp.filter (fun kv => kv.2 == 2)).map Prod.fst

/-- Source `compute_gir_simplified(responses)`: the ordered first-match
rule cascade returning a GIR grade. -/
def compute_gir_simplified (resp : List (String × ℤ)) : ℕ :=
  if 4 ≤ severeCount resp ∧
      ("Cohérence" ∈ sevKeys resp ∨ "Orientation" ∈ sevKeys resp) then 1
  else if 2 ≤ severeCount resp then 2
  else if 1 ≤ severeCount resp ∧ 2 ≤ midCount resp then 3
  else if 1 ≤ midCount resp then 4
  else if severeCount resp = 0 ∧ midCount resp = 0 then 6
  else 5

/-- Python `round(x)` on an exact value: nearest integer, ties to even. -/
def pyRound (x : ℚ) : ℤ :=
  let f := ⌊x⌋
  let r := x - f
  if r < 1/2 then f
  else if 1/2 < r then f + 1
  else if 2 ∣ f then f else f + 1

/-- Python `round(x, 2)` on an exact value: nearest multiple of `1/100`,
ties to even. -/
def round2 (x : ℚ) : ℚ := (pyRound (x * 100) : ℚ) / 100

/-- Source `PLAF_COEF` from `DEFAULT_CFG["plafonds_multiplicateurs"]`
with `PLAF_COEF.get(gir, 0.0)` lookup semantics. -/
def PLAF_COEF (gir : ℕ) : ℚ :=
  if gir = 1 then 1.615
  else if gir = 2 then 1.306
  else if gir = 3 then 0.944
  else if gir = 4 then 0.630
  else 0

/-- Source: `coef = PLAF_COEF.get(gir, 0.0)` followed by
`plafond = round(coef * MTP, 2) if coef else 0.0` (Python truthiness:
`if coef` is false exactly when `coef == 0`). -/
def plafond_of (gir : ℕ) (mtp : ℚ) : ℚ :=
  let coef := PLAF_COEF gir
  if coef ≠ 0 then round2 (coef * mtp) else 0

/-- Source: `A_effectif = min(A, plafond) if plafond > 0 else A`. -/
def A_effectif (A plafond : ℚ) : ℚ :=
  if 0 < plafond then min A plafond else A

/-- Source: `T = 0.0 if A_effectif == 0 else P / A_effectif`. -/
def T_taux (P Aeff : ℚ) : ℚ :=
  if Aeff = 0 then 0 else P / Aeff

/-- Source: `base_heures = 0.0 if cout_h <= 0 else APA_versee / cout_h`. -/
def base_heures (apa coutH : ℚ) : ℚ :=
  if coutH ≤ 0 then 0 else apa / coutH

/-- Source: `h_min = int(max(0, round(base_heures * 0.70)))`. -/
def h_min (apa coutH : ℚ) : ℤ :=
  max 0 (pyRound (base_heures apa coutH * 0.70))

/-- Source: `h_max = int(max(h_min, round(base_heures * 0.90)))`. -/
def h_max (apa coutH : ℚ) : ℤ :=
  max (h_min apa coutH) (pyRound (base_heures apa coutH * 0.90))

/-! ### Helper lemmas -/

lemma LOW_lt_HIGH_mul (mtp : ℚ) (hm : 0 < mtp) : LOW * mtp < HIGH * mtp := by
  have h : LOW < HIGH := by norm_num [LOW, HIGH]
  exact mul_lt_mul_of_pos_right h hm

lemma part_nonneg (R A mtp : ℚ) (hA : 0 ≤ A) :
    0 ≤ compute_participation R A mtp := by
  unfold compute_participation
  split_ifs with h1 h2 h3
  · exact le_refl 0
  · exact le_refl 0
  · linarith
  · exact le_max_right _ _

lemma part_le_cap (R A mtp : ℚ) (hA : 0 ≤ A) :
    compute_participation R A mtp ≤ 0.9 * A := by
  unfold compute_participation
  split_ifs with h1 h2 h3
  · linarith
  · linarith
  · exact le_refl _
  · exact max_le (min_le_right _ _) (by linarith)

lemma split_A_nonneg (A mtp : ℚ) (hA : 0 ≤ A) (hm : 0 ≤ mtp) :
    0 ≤ (split_A A mtp).1 ∧ 0 ≤ (split_A A mtp).2.1 ∧
      0 ≤ (split_A A mtp).2.2 := by
  refine ⟨le_min hA ?_, le_min (le_max_right _ _) (le_max_right _ _),
    le_max_right _ _⟩
  have h : (0 : ℚ) ≤ T1 := by norm_num [T1]
  exact mul_nonneg h hm

lemma blend_mono (A mtp R1 R2 : ℚ) (hA : 0 ≤ A) (hm : 0 < mtp)
    (hL : LOW * mtp ≤ R1) (h12 : R1 ≤ R2) :
    participationBlend R1 A mtp ≤ participationBlend R2 A mtp := by
  obtain ⟨ha1, ha2, ha3⟩ := split_A_nonneg A mtp hA hm.le
  have hd : 0 < (HIGH - LOW) * mtp := by
    have h : (0 : ℚ) < HIGH - LOW := by norm_num [HIGH, LOW]
    exact mul_pos h hm
  have hLm : 0 < LOW * mtp := by
    have h : (0 : ℚ) < LOW := by norm_num [LOW]
    exact mul_pos h hm
  have hR1 : 0 ≤ R1 := by linarith
  have hb1 : 0 ≤ (R1 - LOW * mtp) / ((HIGH - LOW) * mtp) * 0.9 :=
    mul_nonneg (div_nonneg (by linarith) hd.le) (by norm_num)
  have hb2 : 0 ≤ (R2 - LOW * mtp) / ((HIGH - LOW) * mtp) * 0.9 :=
    mul_nonneg (div_nonneg (by linarith) hd.le) (by norm_num)
  have hb12 : (R1 - LOW * mtp) / ((HIGH - LOW) * mtp) * 0.9 ≤
      (R2 - LOW * mtp) / ((HIGH - LOW) * mtp) * 0.9 :=
    mul_le_mul_of_nonneg_right
      ((div_le_div_right hd).mpr (by linarith)) (by norm_num)
  have hq : (0 : ℚ) ≤ (1 - 0.4) / ((HIGH - LOW) * mtp) :=
    div_nonneg (by norm_num) hd.le
  have hq3 : (0 : ℚ) ≤ (1 - 0.2) / ((HIGH - LOW) * mtp) :=
    div_nonneg (by norm_num) hd.le
  have ht20 : (0 : ℚ) ≤ (1 - 0.4) / ((HIGH - LOW) * mtp) * R1 + 0.4 := by
    have := mul_nonneg hq hR1
    linarith
  have ht212 : (1 - 0.4) / ((HIGH - LOW) * mtp) * R1 + 0.4 ≤
      (1 - 0.4) / ((HIGH - LOW) * mtp) * R2 + 0.4 := by
    have := mul_le_mul_of_nonneg_left h12 hq
    linarith
  have ht30 : (0 : ℚ) ≤ (1 - 0.2) / ((HIGH - LOW) * mtp) * R1 + 0.2 := by
    have := mul_nonneg hq3 hR1
    linarith
  have ht312 : (1 - 0.2) / ((HIGH - LOW) * mtp) * R1 + 0.2 ≤
      (1 - 0.2) / ((HIGH - LOW) * mtp) * R2 + 0.2 := by
    have := mul_le_mul_of_nonneg_left h12 hq3
    linarith
  simp only [participationBlend]
  have e1 : (split_A A mtp).1 * ((R1 - LOW * mtp) / ((HIGH - LOW) * mtp) * 0.9) ≤
      (split_A A mtp).1 * ((R2 - LOW * mtp) / ((HIGH - LOW) * mtp) * 0.9) :=
    mul_le_mul_of_nonneg_left hb12 ha1
  have e2 : (split_A A mtp).2.1 * ((R1 - LOW * mtp) / ((HIGH - LOW) * mtp) * 0.9) *
        ((1 - 0.4) / ((HIGH - LOW) * mtp) * R1 + 0.4) ≤
      (split_A A mtp).2.1 * ((R2 - LOW * mtp) / ((HIGH - LOW) * mtp) * 0.9) *
        ((1 - 0.4) / ((HIGH - LOW) * mtp) * R2 + 0.4) :=
    mul_le_mul (mul_le_mul_of_nonneg_left hb12 ha2) ht212 ht20
      (mul_nonneg ha2 hb2)
  have e3 : (split_A A mtp).2.2 * ((R1 - LOW * mtp) / ((HIGH - LOW) * mtp) * 0.9) *
        ((1 - 0.2) / ((HIGH - LOW) * mtp) * R1 + 0.2) ≤
      (split_A A mtp).2.2 * ((R2 - LOW * mtp) / ((HIGH - LOW) * mtp) * 0.9) *
        ((1 - 0.2) / ((HIGH - LOW) * mtp) * R2 + 0.2) :=
    mul_le_mul (mul_le_mul_of_nonneg_left hb12 ha3) ht312 ht30
      (mul_nonneg ha3 hb2)
  linarith

lemma clamp_mono {x y c : ℚ} (h : x ≤ y) :
    max (min x c) 0 ≤ max (min y c) 0 :=
  max_le_max (min_le_min h (le_refl c)) (le_refl 0)

/-! ### Claim theorems -/

/-- C4: for every `A ≥ 0` and `M > 0`, the tranche split
`(a1, a2, a3) = split_A(A, M)` satisfies `a1 + a2 + a3 = A` exactly and
each tranche is non-negative. -/
theorem C4_split_sum (A mtp : ℚ) (hA : 0 ≤ A) (hm : 0 < mtp) :
    (split_A A mtp).1 + (split_A A mtp).2.1 + (split_A A mtp).2.2 = A ∧
    0 ≤ (split_A A mtp).1 ∧ 0 ≤ (split_A A mtp).2.1 ∧
      0 ≤ (split_A A mtp).2.2 := by
  refine ⟨?_, split_A_nonneg A mtp hA hm.le⟩
  have hs12 : T1 * mtp ≤ T2 * mtp := by
    have h : T1 ≤ T2 := by norm_num [T1, T2]
    exact mul_le_mul_of_nonneg_right h hm.le
  simp only [split_A, min_def, max_def]
  split_ifs <;> linarith

/-- C4 witness at `A = 500`, `M = 1365.08`. -/
theorem C4_split_sum_witness :
    (0 : ℚ) ≤ 500 ∧ (0 : ℚ) < 1365.08 ∧
    (split_A 500 1365.08).1 + (split_A 500 1365.08).2.1 +
      (split_A 500 1365.08).2.2 = 500 :=
  ⟨by norm_num, by norm_num,
    (C4_split_sum 500 1365.08 (by norm_num) (by norm_num)).1⟩

/-- C3: for every `A ≥ 0` and `M > 0`, the participation is `0` whenever
`R ≤ 0.725·M` and `0.9·A` whenever `R ≥ 2.67·M`. -/
theorem C3_participation_ends (R A mtp : ℚ) (hA : 0 ≤ A) (hm : 0 < mtp) :
    (R ≤ LOW * mtp → compute_participation R A mtp = 0) ∧
    (HIGH * mtp ≤ R → compute_participation R A mtp = 0.9 * A) := by
  constructor
  · intro h
    unfold compute_participation
    rcases le_or_lt A 0 with h0 | h0
    · rw [if_pos h0]
    · rw [if_neg (not_le.mpr h0), if_pos h]
  · intro h
    rcases le_or_lt A 0 with h0 | h0
    · have hA0 : A = 0 := le_antisymm h0 hA
      unfold compute_participation
      rw [if_pos h0, hA0, mul_zero]
    · have hnl : ¬ R ≤ LOW * mtp := by
        have := LOW_lt_HIGH_mul mtp hm
        push_neg
        linarith
      unfold compute_participation
      rw [if_neg (not_le.mpr h0), if_neg hnl, if_pos h]

/-- C3 witness at `R = 500` resp. `R = 4000`, `A = 100`, `M = 1365.08`. -/
theorem C3_participation_ends_witness :
    (0 : ℚ) ≤ 100 ∧ (0 : ℚ) < 1365.08 ∧
    ((500 : ℚ) ≤ LOW * 1365.08 → compute_participation 500 100 1365.08 = 0) ∧
    (HIGH * 1365.08 ≤ (4000 : ℚ) →
      compute_participation 4000 100 1365.08 = 0.9 * 100) :=
  ⟨by norm_num, by norm_num,
    (C3_participation_ends 500 100 1365.08 (by norm_num) (by norm_num)).1,
    (C3_participation_ends 4000 100 1365.08 (by norm_num) (by norm_num)).2⟩

/-- C6: the all-zero complete assessment classifies as GIR 6 and the
all-two complete assessment classifies as GIR 1. -/
theorem C6_extremes :
    compute_gir_simplified (AGGIR_KEYS.map (fun k => (k, (0 : ℤ)))) = 6 ∧
    compute_gir_simplified (AGGIR_KEYS.map (fun k => (k, (2 : ℤ)))) = 1 := by
  constructor <;> rfl

/-- C1: for every income `R ≥ 0`, approved amount `A` and reference
amount `M > 0`, `compute_participation R A M` lies in `[0, 0.9·A]` when
`A > 0`, and equals `0` whenever `A ≤ 0`. -/
theorem C1_participation_bounds (R A mtp : ℚ) (hR : 0 ≤ R) (hm : 0 < mtp) :
    (0 < A → 0 ≤ compute_participation R A mtp ∧
      compute_participation R A mtp ≤ 0.9 * A) ∧
    (A ≤ 0 → compute_participation R A mtp = 0) :=
  ⟨fun hA => ⟨part_nonneg R A mtp hA.le, part_le_cap R A mtp hA.le⟩,
   fun hA => by unfold compute_participation; rw [if_pos hA]⟩

/-- C1 witness at `R = 2000`, `A = 800`, `M = 1365.08` (interior regime). -/
theorem C1_participation_bounds_witness :
    (0 : ℚ) ≤ 2000 ∧ (0 : ℚ) < 1365.08 ∧
    (0 ≤ compute_participation 2000 800 1365.08 ∧
      compute_participation 2000 800 1365.08 ≤ 0.9 * 800) :=
  ⟨by norm_num, by norm_num,
    (C1_participation_bounds 2000 800 1365.08 (by norm_num)
      (by norm_num)).1 (by norm_num)⟩

/-- C2: for every fixed `A ≥ 0` and `M > 0`, `R ↦ compute_participation R A M`
is monotonically non-decreasing over `R ≥ 0`, across both regime
boundaries `R = 0.725·M` and `R = 2.67·M`. -/
theorem C2_participation_mono (A mtp R1 R2 : ℚ) (hA : 0 ≤ A) (hm : 0 < mtp)
    (hR1 : 0 ≤ R1) (h12 : R1 ≤ R2) :
    compute_participation R1 A mtp ≤ compute_participation R2 A mtp := by
  rcases le_or_lt A 0 with hA0 | hA0
  · unfold compute_participation
    rw [if_pos hA0, if_pos hA0]
  · by_cases hb1 : R1 ≤ LOW * mtp
    · have e1 : compute_participation R1 A mtp = 0 := by
        unfold compute_participation
        rw [if_neg (not_le.mpr hA0), if_pos hb1]
      rw [e1]
      exact part_nonneg R2 A mtp hA
    · by_cases hb2 : HIGH * mtp ≤ R1
      · have e1 : compute_participation R1 A mtp = 0.9 * A := by
          unfold compute_participation
          rw [if_neg (not_le.mpr hA0), if_neg hb1, if_pos hb2]
        have e2 : compute_participation R2 A mtp = 0.9 * A := by
          unfold compute_participation
          rw [if_neg (not_le.mpr hA0), if_neg (fun h => hb1 (h12.trans h)),
            if_pos (hb2.trans h12)]
        rw [e1, e2]
      · by_cases hb3 : HIGH * mtp ≤ R2
        · have e2 : compute_participation R2 A mtp = 0.9 * A := by
            unfold compute_participation
            rw [if_neg (not_le.mpr hA0), if_neg (fun h => hb1 (h12.trans h)),
              if_pos hb3]
          rw [e2]
          exact part_le_cap R1 A mtp hA
        · have e1 : compute_participation R1 A mtp =
              max (min (participationBlend R1 A mtp) (0.9 * A)) 0 := by
            unfold compute_participation
            rw [if_neg (not_le.mpr hA0), if_neg hb1, if_neg hb2]
          have e2 : compute_participation R2 A mtp =
              max (min (participationBlend R2 A mtp) (0.9 * A)) 0 := by
            unfold compute_participation
            rw [if_neg (not_le.mpr hA0), if_neg (fun h => hb1 (h12.trans h)),
              if_neg hb3]
          rw [e1, e2]
          exact clamp_mono
            (blend_mono A mtp R1 R2 hA hm (not_le.mp hb1).le h12)

/-- C2 witness: `R1 = 1000 ≤ R2 = 2000`, `A = 100`, `M = 1365.08`. -/
theorem C2_participation_mono_witness :
    (0 : ℚ) ≤ 100 ∧ (0 : ℚ) < 1365.08 ∧ (0 : ℚ) ≤ 1000 ∧
    (1000 : ℚ) ≤ 2000 ∧
    compute_participation 1000 100 1365.08 ≤
      compute_participation 2000 100 1365.08 :=
  ⟨by norm_num, by norm_num, by norm_num, by norm_num,
    C2_participation_mono 100 1365.08 1000 2000 (by norm_num) (by norm_num)
      (by norm_num) (by norm_num)⟩

/-- C5: every complete assessment (all ten domains answered in {0,1,2})
with at least 4 severe answers whose severe set contains Cohérence or
Orientation classifies as GIR 1. -/
theorem C5_gir1 (resp : List (String × ℤ))
    (hkeys : resp.map Prod.fst = AGGIR_KEYS)
    (hvals : ∀ kv ∈ resp, kv.2 = 0 ∨ kv.2 = 1 ∨ kv.2 = 2)
    (hsev : 4 ≤ severeCount resp)
    (hdom : ("Cohérence", (2 : ℤ)) ∈ resp ∨
      ("Orientation", (2 : ℤ)) ∈ resp) :
    compute_gir_simplified resp = 1 := by
  have hmem : "Cohérence" ∈ sevKeys resp ∨ "Orientation" ∈ sevKeys resp := by
    rcases hdom with h | h
    · exact Or.inl (List.mem_map.mpr
        ⟨("Cohérence", 2), List.mem_filter.mpr ⟨h, by decide⟩, rfl⟩)
    · exact Or.inr (List.mem_map.mpr
        ⟨("Orientation", 2), List.mem_filter.mpr ⟨h, by decide⟩, rfl⟩)
  unfold compute_gir_simplified
  rw [if_pos ⟨hsev, hmem⟩]

/-- C5 witness: Cohérence, Toilette, Habillage, Alimentation severe,
everything else autonomous. -/
theorem C5_gir1_witness :
    compute_gir_simplified
      [("Cohérence", 2), ("Orientation", 0), ("Toilette", 2),
       ("Habillage", 2), ("Alimentation", 2), ("Élimination", 0),
       ("Transferts", 0), ("Déplacements intérieurs", 0),
       ("Déplacements extérieurs", 0), ("Communication", 0)] = 1 :=
  C5_gir1 _ (by rfl) (by decide) (by decide) (by decide)

/-- C7 counterexample: with the default configuration, grade 5 has
ceiling 0, and the code then passes the requested amount through
uncapped (`A_effectif = A`, here `100`), contradicting
`A_effective = min(A, ceiling(grade))` and `A_effective ≤ 0`. -/
theorem C7_cap_counterexample :
    A_effectif 100 (plafond_of 5 MTP) = 100 ∧
    ¬ A_effectif 100 (plafond_of 5 MTP) ≤ 0 ∧
    A_effectif 100 (plafond_of 5 MTP) ≠ min 100 (plafond_of 5 MTP) := by
  refine ⟨?_, ?_, ?_⟩ <;> norm_num [A_effectif, plafond_of, PLAF_COEF]

/-- C7 amended: the effective amount is capped at the ceiling only when
the ceiling is positive (grades 1–4 under the default configuration);
for grades without a configured coefficient the ceiling is 0 and the
requested amount is passed through unchanged. -/
theorem C7_cap_amended (g : ℕ) (A : ℚ) :
    (g = 1 ∨ g = 2 ∨ g = 3 ∨ g = 4 →
      A_effectif A (plafond_of g MTP) = min A (plafond_of g MTP)) ∧
    (PLAF_COEF g = 0 → A_effectif A (plafond_of g MTP) = A) := by
  constructor
  · rintro (rfl | rfl | rfl | rfl) <;>
    · rw [A_effectif, if_pos (by norm_num [plafond_of, PLAF_COEF, round2, pyRound, MTP])]
  · intro h
    simp [plafond_of, h, A_effectif]

/-- C7 amended witness at grade 4 (capped) and grade 5 (pass-through). -/
theorem C7_cap_amended_witness :
    A_effectif 1000 (plafond_of 4 MTP) = min 1000 (plafond_of 4 MTP) ∧
    A_effectif 50 (plafond_of 5 MTP) = 50 :=
  ⟨(C7_cap_amended 4 1000).1 (by norm_num),
   (C7_cap_amended 5 50).2 (by norm_num [PLAF_COEF])⟩

/-- C8 counterexample: the empty mapping is not a complete assessment,
yet the classifier still returns a grade (6) instead of failing. -/
theorem C8_no_validation_counterexample :
    ([] : List (String × ℤ)).map Prod.fst ≠ AGGIR_KEYS ∧
    compute_gir_simplified [] = 6 := by
  exact ⟨by decide, rfl⟩

/-- C8 amended: `compute_gir_simplified` performs no input validation at
all; for every mapping (incomplete, extra keys, out-of-range values
included) it totally returns a grade in `[1, 6]` rather than failing. -/
theorem C8_no_validation_amended (resp : List (String × ℤ)) :
    1 ≤ compute_gir_simplified resp ∧ compute_gir_simplified resp ≤ 6 := by
  unfold compute_gir_simplified
  split_ifs <;> norm_num

/-- C9 counterexample: with net subsidy 400 and hourly rate 20 the code
yields the hour range `[14, 18]`, not `[10, 13]` (baseHours is
`400 / 20 = 20`, not 14). -/
theorem C9_hours_counterexample :
    ¬ (h_min 400 20 = 10 ∧ h_max 400 20 = 13) := by
  norm_num [h_max, h_min, base_heures, pyRound]

/-- C9 amended: for net subsidy 400 and hourly rate 20, baseHours is 20
and the derived hour range is `[round(20·0.70), round(20·0.90)] = [14, 18]`. -/
theorem C9_hours_amended : h_min 400 20 = 14 ∧ h_max 400 20 = 18 := by
  constructor
  · norm_num [h_min, base_heures, pyRound]
  · norm_num [h_max, h_min, base_heures, pyRound]

/-- C10: the participation-rate computation is guarded at the zero
boundary: `T = 0` when `A_effectif = 0`, and otherwise `T` is the exact
quotient `P / A_effectif` (so `T · A_effectif = P`); no division by zero
occurs for any `A_effectif ≥ 0`. -/
theorem C10_rate_guard (P A : ℚ) (h : 0 ≤ A) :
    (A = 0 → T_taux P A = 0) ∧ (A ≠ 0 → T_taux P A * A = P) := by
  constructor
  · intro h0
    simp [T_taux, h0]
  · intro h0
    rw [T_taux, if_neg h0]
    exact div_mul_cancel₀ P h0

/-- C10 witness at the guarded point `A_effectif = 0`. -/
theorem C10_rate_guard_witness : (0 : ℚ) ≤ 0 ∧ T_taux 5 0 = 0 :=
  ⟨le_refl 0, (C10_rate_guard 5 0 (le_refl 0)).1 rfl⟩
